import Mathlib

/-!
# poclibusb: PS3 controller polling over libusb

A shallow embedding of `src/application.cpp`: the `ps3` snapshot, the report
decoding done by `UsbManager::process`, the session driven by
`UsbManager::start`, and the observer lambda of `main`.

The USB transport is an oracle (`Env`): it fixes what every libusb call
returns. Everything the program does to the outside world (libusb calls,
console lines, callback invocations) is recorded, in order, in a trace of
`Event`s. The `while (running)` loop is given fuel; running out of fuel is
`none`.
-/

namespace PocLibusb

/-! ## Data model -/

/-- The seventeen `bool` members of `struct ps3`, in declaration order. -/
inductive Button
  | select | start
  | up | down | right | left
  | triangle | circle | square | cross
  | left_one | right_one | left_two | right_two | left_three | right_three
  | ps_button
  deriving DecidableEq, Repr

/-- The C++ `struct ps3`; `ps3 data {}` value-initialises every member
(`false` / `0`). -/
structure ps3 where
  select : Bool := false
  start : Bool := false
  up : Bool := false
  down : Bool := false
  right : Bool := false
  left : Bool := false
  triangle : Bool := false
  circle : Bool := false
  square : Bool := false
  cross : Bool := false
  left_one : Bool := false
  right_one : Bool := false
  left_two : Bool := false
  right_two : Bool := false
  left_three : Bool := false
  right_three : Bool := false
  ps_button : Bool := false
  left_analog_x : Int := 0
  left_analog_y : Int := 0
  right_analog_x : Int := 0
  right_analog_y : Int := 0
  acceleration : Int := 0
  deriving DecidableEq, Repr

/-- Member access by name: `d.field b` is the `bool` member `b` of `d`. -/
def ps3.field (d : ps3) : Button → Bool
  | .select => d.select
  | .start => d.start
  | .up => d.up
  | .down => d.down
  | .right => d.right
  | .left => d.left
  | .triangle => d.triangle
  | .circle => d.circle
  | .square => d.square
  | .cross => d.cross
  | .left_one => d.left_one
  | .right_one => d.right_one
  | .left_two => d.left_two
  | .right_two => d.right_two
  | .left_three => d.left_three
  | .right_three => d.right_three
  | .ps_button => d.ps_button

/-- The buffer `uint8_t input_report[49]`: 49 bytes, each `0 .. 255`. -/
abbrev Report := Fin 49 → Fin 256

/-- The conversion `(int8_t)x` of an integer value: the value congruent to
`x` modulo `2^8` in the range `-128 .. 127`. -/
def to_int8 (x : Int) : Int :=
  let m := x % 256
  if m < 128 then m else m - 256

/-- Every line the program writes to the console (`printf` and `perr`),
with the values its format string displays. -/
inductive Line
  /-- Line `"Main method\n"` -/
  | main_method
  /-- Line `"Opening device %04X:%04X...\n"` -/
  | opening_device (vid pid : Nat)
  /-- Line `"  Failed.\n"` after a null handle, `"   Failed.\n"` after a claim -/
  | failed
  /-- Line `"   %s\n"` with `libusb_strerror(errcode)`, written by `ERR_EXIT` -/
  | strerror (errcode : Int)
  /-- Line `" Interfaces: %d\n"` -/
  | interfaces (nb_ifaces : Int)
  /-- Line `"\nKernel driver attached for interface %d: %d\n"` -/
  | kernel_driver (iface : Nat) (ret : Int)
  /-- Line `"\nClaiming interface %d...\n"` -/
  | claiming (iface : Nat)
  /-- Line `"\n"` -/
  | newline
  /-- Line `"Releasing interface %d...\n"` -/
  | releasing (iface : Nat)
  /-- Line `"Closing device...\n"` -/
  | closing
  /-- Line `"Stopping...\n"` -/
  | stopping
  /-- Line `"Unable to set debug level\n"` -/
  | unable_debug
  /-- Line `"\nReading PS3 Input Report...\n"` -/
  | reading_report
  /-- Line `"\tSELECT pressed\n"` and its fifteen siblings -/
  | pressed (b : Button)
  /-- Line `"\tPS button: %d\n"` -/
  | ps_button (v : Int)
  /-- Line `"\tLeft Analog (X,Y): (%d,%d)\n"` -/
  | left_analog (x y : Int)
  /-- Line `"\tRight Analog (X,Y): (%d,%d)\n"` -/
  | right_analog (x y : Int)
  /-- Line `"\tL2 Value: %d\tR2 Value: %d\n"` -/
  | l2_r2 (l2 r2 : Int)
  /-- Line `"\tL1 Value: %d\tR1 Value: %d\n"` -/
  | l1_r1 (l1 r1 : Int)
  /-- Line `"\tRoll (x axis): %d Yaw (y axis): %d Pitch (z axis) %d\n"` -/
  | tilt (roll yaw pitch : Int)
  /-- Line `"\tAcceleration: %d\n\n"` -/
  | acceleration (v : Int)
  /-- Line `"\tLEFT!!!\n"` and its fifteen siblings, written by the observer of
  `main` -/
  | edge (b : Button)
  deriving DecidableEq, Repr

/-- The guarded print `if (print_mode) printf(...)`. -/
def pr (print_mode : Bool) (l : Line) : List Line :=
  if print_mode then [l] else []

/-- The guarded print inside a button branch:
`if (code matched) { ...; if (print_mode) printf("... pressed\n"); }`. -/
def pressed (print_mode : Bool) (hit : Bool) (b : Button) : List Line :=
  if hit then pr print_mode (Line.pressed b) else []

/-- Lines 173 to 306 of `UsbManager::process`: the `ps3` value built from the
buffer, with the lines written on the way when `print_mode` is set. -/
def decode (print_mode : Bool) (input_report : Report) : ps3 × List Line :=
  let data : ps3 := {
    select := if (input_report 2).val = 0x01 then true else false
    left_three := if (input_report 2).val = 0x02 then true else false
    right_three := if (input_report 2).val = 0x04 then true else false
    start := if (input_report 2).val = 0x08 then true else false
    up := if (input_report 2).val = 0x10 then true else false
    right := if (input_report 2).val = 0x20 then true else false
    down := if (input_report 2).val = 0x40 then true else false
    left := if (input_report 2).val = 0x80 then true else false
    left_two := if (input_report 3).val = 0x01 then true else false
    right_two := if (input_report 3).val = 0x02 then true else false
    left_one := if (input_report 3).val = 0x04 then true else false
    right_one := if (input_report 3).val = 0x08 then true else false
    triangle := if (input_report 3).val = 0x10 then true else false
    circle := if (input_report 3).val = 0x20 then true else false
    cross := if (input_report 3).val = 0x40 then true else false
    square := if (input_report 3).val = 0x80 then true else false
    ps_button := if (input_report 4).val = 0 then false else true
    left_analog_x := ((input_report 6).val : Int)
    left_analog_y := ((input_report 7).val : Int)
    right_analog_x := ((input_report 8).val : Int)
    right_analog_y := ((input_report 9).val : Int)
    acceleration := ((input_report 48).val : Int) }
  (data,
    pressed print_mode data.select .select
    ++ pressed print_mode data.left_three .left_three
    ++ pressed print_mode data.right_three .right_three
    ++ pressed print_mode data.start .start
    ++ pressed print_mode data.up .up
    ++ pressed print_mode data.right .right
    ++ pressed print_mode data.down .down
    ++ pressed print_mode data.left .left
    ++ pressed print_mode data.left_two .left_two
    ++ pressed print_mode data.right_two .right_two
    ++ pressed print_mode data.left_one .left_one
    ++ pressed print_mode data.right_one .right_one
    ++ pressed print_mode data.triangle .triangle
    ++ pressed print_mode data.circle .circle
    ++ pressed print_mode data.cross .cross
    ++ pressed print_mode data.square .square
    ++ pr print_mode (.ps_button (if data.ps_button then 1 else 0))
    ++ pr print_mode (.left_analog data.left_analog_x data.left_analog_y)
    ++ pr print_mode (.right_analog data.right_analog_x data.right_analog_y)
    ++ pr print_mode (.l2_r2 (input_report 18).val (input_report 19).val)
    ++ pr print_mode (.l1_r1 (input_report 20).val (input_report 21).val)
    ++ pr print_mode (.tilt (to_int8 (input_report 42).val)
        (to_int8 (input_report 44).val) (to_int8 (input_report 46).val))
    ++ pr print_mode (.acceleration (to_int8 data.acceleration)))

/-! ## The transport oracle and the trace -/

/-- One call of `libusb_control_transfer` as seen by `process`: the value it
returns (bytes transferred, or a negative `libusb_error`) and what
`input_report` holds once it has returned. The buffer is a local array that
`process` does not initialise, so after a transfer of fewer than 49 bytes the
remaining bytes are whatever the stack held; the oracle fixes all 49. -/
structure Transfer where
  ret : Int
  input_report : Report

/-- What the libusb calls of one run return. -/
structure Env where
  /-- Result of `putenv(debug_env_str)`. -/
  putenv : Int
  /-- Result of `libusb_init(nullptr)`. -/
  libusb_init : Int
  /-- Whether `libusb_open_device_with_vid_pid` returns a handle (`false`: `nullptr`). -/
  handle : Bool
  /-- Result of `libusb_get_config_descriptor(dev, 0, &conf_desc)`. -/
  get_config_descriptor : Int
  /-- Member `conf_desc->bNumInterfaces`, a `uint8_t`. -/
  bNumInterfaces : Fin 256
  /-- Result of `libusb_kernel_driver_active(handle, iface)`. -/
  kernel_driver_active : Nat → Int
  /-- Result of `libusb_claim_interface(handle, iface)`. -/
  claim_interface : Nat → Int
  /-- Outcome of the `k`-th call (from 0) of `libusb_control_transfer`. -/
  control_transfer : Nat → Transfer

/-- Everything the program does that is visible outside it, one constructor
per library call, plus the callback invocation and the console lines. -/
inductive Event
  | putenv
  | libusb_set_log_level
  | libusb_init
  | libusb_open_device_with_vid_pid (vid pid : Nat)
  | libusb_get_device
  | libusb_get_config_descriptor
  | libusb_set_auto_detach_kernel_driver
  | libusb_kernel_driver_active (iface : Nat)
  | libusb_claim_interface (iface : Nat)
  | libusb_control_transfer
  | callback (data : ps3)
  | nanosleep (tv_sec tv_nsec : Int)
  | libusb_release_interface (iface : Nat)
  | libusb_close
  | libusb_exit
  | printf (l : Line)
  | perr (l : Line)
  deriving DecidableEq, Repr

/-- What a callback can do to the session while it runs: call
`manager.stop()`, or write a line. -/
inductive Action
  | stop
  | printf (l : Line)
  deriving DecidableEq, Repr

/-- The member `std::function<void(ps3)> callback`: given the snapshot and
the state the callback has captured (`σ`), the new captured state and what
the callback did, in order. -/
abbrev Observer (σ : Type) := ps3 → σ → σ × List Action

/-! ## `UsbManager` -/

/-- The data members of `class UsbManager` other than `callback`. -/
structure UsbManager where
  running : Bool
  print_mode : Bool
  debug_mode : Bool
  sleep_time : Int
  deriving DecidableEq, Repr

/-- The constructor `UsbManager(callback, sleep_time, print_mode, debug_mode)`;
it sets `running = true`. -/
def UsbManager.new (sleep_time : Int) (print_mode debug_mode : Bool) : UsbManager :=
  { running := true, print_mode := print_mode, debug_mode := debug_mode,
    sleep_time := sleep_time }

/-- The method `UsbManager::stop`. -/
def UsbManager.stop (m : UsbManager) : UsbManager × List Event :=
  ({ m with running := false }, [.printf .stopping])

/-- Runs what the callback did against the manager. -/
def UsbManager.perform (m : UsbManager) : List Action → UsbManager × List Event
  | [] => (m, [])
  | .stop :: rest =>
    let (m1, e1) := m.stop
    let (m2, e2) := m1.perform rest
    (m2, e1 ++ e2)
  | .printf l :: rest =>
    let (m2, e2) := m.perform rest
    (m2, .printf l :: e2)

/-- The state of a run: the manager, the state captured by the callback, the
number of control transfers issued so far, and the trace so far. -/
structure Session (σ : Type) where
  manager : UsbManager
  observer : σ
  polls : Nat
  trace : List Event

/-- The function `msleep` (the `nanosleep` branch): C integer division and
remainder truncate towards zero. -/
def msleep (msecs : Int) : List Event :=
  [.nanosleep (msecs.tdiv 1000) (msecs.tmod 1000 * 1000000)]

/-- The method `UsbManager::init`: its result and the calls it makes. -/
def UsbManager.init (m : UsbManager) (env : Env) : Int × List Event :=
  let setup : List Event :=
    if m.debug_mode then
      if env.putenv ≠ 0 then [.putenv, .printf .unable_debug] else [.putenv]
    else [.libusb_set_log_level]
  let init_status := env.libusb_init
  if init_status < 0 then (init_status, setup ++ [.libusb_init])
  else (0, setup ++ [.libusb_init])

/-- The method `UsbManager::process`: one control transfer; `CALL_CHECK`
returns -1 on a negative result; otherwise the buffer is decoded and
`callback(data)` is invoked; the result is 0. -/
def UsbManager.process {σ : Type} (env : Env) (callback : Observer σ)
    (st : Session σ) : Int × Session σ :=
  let t := env.control_transfer st.polls
  let tr := st.trace ++ (pr st.manager.print_mode .reading_report).map .printf
    ++ [.libusb_control_transfer]
  if t.ret < 0 then
    (-1, { st with polls := st.polls + 1, trace := tr ++ [.perr (.strerror t.ret)] })
  else
    let (data, lines) := decode st.manager.print_mode t.input_report
    let (s, actions) := callback data st.observer
    let (m, evs) := st.manager.perform actions
    (0, { manager := m, observer := s, polls := st.polls + 1,
          trace := tr ++ lines.map .printf ++ [.callback data] ++ evs })

/-- One pass through the body of `while (running)` in `start`:
`process(handle); if (sleep_time > 0) msleep(sleep_time);`. The result of
`process` is discarded. -/
def UsbManager.iteration {σ : Type} (env : Env) (callback : Observer σ)
    (st : Session σ) : Session σ :=
  let st1 := (UsbManager.process env callback st).2
  if st1.manager.sleep_time > 0 then
    { st1 with trace := st1.trace ++ msleep st1.manager.sleep_time }
  else st1

/-- The loop `while (running) { ... }` of `start`, with fuel: `none` when the
fuel runs out while `running` is still true. -/
def UsbManager.loop {σ : Type} (env : Env) (callback : Observer σ) :
    Nat → Session σ → Option (Session σ)
  | 0, st => if st.manager.running then none else some st
  | fuel + 1, st =>
    if st.manager.running then
      UsbManager.loop env callback fuel (UsbManager.iteration env callback st)
    else some st

/-- The claiming `for` loop of `start` over `iface = 0 .. nb_ifaces - 1`. -/
def claim_interfaces (env : Env) (nb_ifaces : Nat) : List Event :=
  (List.range nb_ifaces).flatMap fun iface =>
    [.libusb_kernel_driver_active iface,
     .printf (.kernel_driver iface (env.kernel_driver_active iface)),
     .printf (.claiming iface),
     .libusb_claim_interface iface]
    ++ (if env.claim_interface iface ≠ 0 then [.perr .failed] else [])

/-- The releasing `for` loop of `start` over `iface = 0 .. nb_ifaces - 1`. -/
def release_interfaces (nb_ifaces : Nat) : List Event :=
  (List.range nb_ifaces).flatMap fun iface =>
    [.printf (.releasing iface), .libusb_release_interface iface]

/-- Lines 118 to 127 of `start`: what follows the loop. -/
def teardown (nb_ifaces : Nat) : List Event :=
  [.printf .newline] ++ release_interfaces nb_ifaces
    ++ [.printf .closing, .libusb_close, .libusb_exit]

/-- The method `UsbManager::start`: the value it returns and the final
session, or `none` when the loop outlives the fuel. -/
def UsbManager.start {σ : Type} (m : UsbManager) (env : Env) (callback : Observer σ)
    (s : σ) (fuel : Nat) : Option (Int × Session σ) :=
  let i := m.init env
  -- `int init_status = init() < 0`: the comparison is what is stored
  let init_status : Int := if i.1 < 0 then 1 else 0
  if init_status ≠ 0 then
    some (init_status, { manager := m, observer := s, polls := 0, trace := i.2 })
  else
    let tr := i.2 ++ [.printf (.opening_device 0x054C 0x0268),
      .libusb_open_device_with_vid_pid 0x054C 0x0268]
    if !env.handle then
      some (-1, { manager := m, observer := s, polls := 0, trace := tr ++ [.perr .failed] })
    else
      let tr := tr ++ [.libusb_get_device, .libusb_get_config_descriptor]
      if env.get_config_descriptor < 0 then
        some (-1, { manager := m, observer := s, polls := 0,
                    trace := tr ++ [.libusb_close,
                      .perr (.strerror env.get_config_descriptor)] })
      else
        let nb_ifaces : Nat := env.bNumInterfaces.val
        let tr := tr ++ [.printf (.interfaces nb_ifaces),
          .libusb_set_auto_detach_kernel_driver] ++ claim_interfaces env nb_ifaces
        match UsbManager.loop env callback fuel
            { manager := m, observer := s, polls := 0, trace := tr } with
        | none => none
        | some st => some (0, { st with trace := st.trace ++ teardown nb_ifaces })

/-! ## `main` -/

/-- One edge test of the observer:
`if (info.b && !oldData.b) printf("\t...!!!\n")`. -/
def edge (info oldData : ps3) (b : Button) : List Action :=
  if info.field b && !oldData.field b then [.printf (.edge b)] else []

/-- The lambda handed to `UsbManager` in `main`; its captured state is
`oldData`. -/
def main_callback : Observer ps3 := fun info oldData =>
  (info,
    (if info.ps_button then [Action.stop] else [])
    ++ edge info oldData .left
    ++ edge info oldData .right
    ++ edge info oldData .up
    ++ edge info oldData .down
    ++ edge info oldData .start
    ++ edge info oldData .select
    ++ edge info oldData .left_one
    ++ edge info oldData .right_one
    ++ edge info oldData .left_two
    ++ edge info oldData .right_two
    ++ edge info oldData .left_three
    ++ edge info oldData .right_three
    ++ edge info oldData .triangle
    ++ edge info oldData .circle
    ++ edge info oldData .cross
    ++ edge info oldData .square)

/-- The function `main`: `oldData {}`, a manager built with
`(lambda, 0, true, true)`, `manager.start()` with its result discarded,
`return 0`. -/
def main (env : Env) (fuel : Nat) : Option (Int × List Event) :=
  match (UsbManager.new 0 true true).start env main_callback {} fuel with
  | none => none
  | some (_, st) => some (0, Event.printf .main_method :: st.trace)

/-! ## Vocabulary of the statements -/

/-- The codes the claims name for `input_report[2]`, each with its member. -/
def offset2_codes : List (Nat × Button) :=
  [(0x01, .select), (0x02, .left_three), (0x04, .right_three), (0x08, .start),
   (0x10, .up), (0x20, .right), (0x40, .down), (0x80, .left)]

/-- The codes the claims name for `input_report[3]`, each with its member. -/
def offset3_codes : List (Nat × Button) :=
  [(0x01, .left_two), (0x02, .right_two), (0x04, .left_one), (0x08, .right_one),
   (0x10, .triangle), (0x20, .circle), (0x40, .cross), (0x80, .square)]

/-- The value shown by the `"\tAcceleration: %d\n\n"` line, if `l` is one. -/
def Line.acceleration_shown : Line → Option Int
  | .acceleration v => some v
  | _ => none

/-- How many `"\t<B>!!!\n"` lines for member `b` a callback wrote. -/
def edge_events (b : Button) (actions : List Action) : Nat :=
  actions.count (Action.printf (.edge b))

/-- A report that is zero everywhere except at the listed `(offset, value)`
pairs. -/
def report_of (bytes : List (Nat × Nat)) : Report := fun i =>
  match bytes.lookup i.val with
  | some v => Fin.ofNat v
  | none => 0

/-- Whether the event is a console line (`printf` or `perr`) rather than a
library call, a sleep or a callback invocation. -/
def Event.is_console : Event → Bool
  | .printf _ => true
  | .perr _ => true
  | _ => false

/-- The trace without its console lines: the library calls, sleeps and
callback invocations, in order. -/
def calls (trace : List Event) : List Event :=
  trace.filter fun e => !e.is_console

/-- The event an action of the callback leaves in the trace: `stop()` writes
`"Stopping...\n"`. -/
def Action.event : Action → Event
  | .stop => .printf .stopping
  | .printf l => .printf l

/-- The snapshot handed over, if the event is a callback invocation. -/
def Event.callback_data : Event → Option ps3
  | .callback data => some data
  | _ => none

/-- The snapshots the callback was invoked with, in order. -/
def callbacks (trace : List Event) : List ps3 :=
  trace.filterMap Event.callback_data

/-- Whether the event is one of the calls that follow the loop in `start`:
release of an interface, close of the handle, `libusb_exit`. -/
def Event.is_teardown : Event → Bool
  | .libusb_release_interface _ => true
  | .libusb_close => true
  | .libusb_exit => true
  | _ => false

/-- How many control transfers (calls of `process`) the trace holds. -/
def transfers (trace : List Event) : Nat :=
  trace.count Event.libusb_control_transfer

/-- A transport whose transfers all deliver 10 bytes; the buffer then holds a
triangle report. -/
def env_short_transfer : Env where
  putenv := 0
  libusb_init := 0
  handle := true
  get_config_descriptor := 0
  bNumInterfaces := 1
  kernel_driver_active := fun _ => 0
  claim_interface := fun _ => 0
  control_transfer := fun _ => ⟨10, report_of [(3, 0x10)]⟩

/-- A transport whose first transfer fails with -4 (`LIBUSB_ERROR_NO_DEVICE`)
and whose later transfers deliver a report with the PS button down. -/
def env_transfer_error : Env where
  putenv := 0
  libusb_init := 0
  handle := true
  get_config_descriptor := 0
  bNumInterfaces := 1
  kernel_driver_active := fun _ => 0
  claim_interface := fun _ => 0
  control_transfer := fun k =>
    match k with
    | 0 => ⟨-4, report_of []⟩
    | _ => ⟨49, report_of [(4, 1)]⟩

/-- A transport with two interfaces (the claim of the second fails) whose first
transfer delivers a triangle report and whose later ones have the PS button
down. -/
def env_stop_second : Env where
  putenv := 0
  libusb_init := 0
  handle := true
  get_config_descriptor := 0
  bNumInterfaces := 2
  kernel_driver_active := fun _ => 0
  claim_interface := fun iface => if iface = 1 then -6 else 0
  control_transfer := fun k =>
    match k with
    | 0 => ⟨49, report_of [(3, 0x10)]⟩
    | _ => ⟨49, report_of [(4, 1), (2, 0x80)]⟩

/-- A transport on which no device matches: the open returns `nullptr`. -/
def env_no_device : Env where
  putenv := 0
  libusb_init := 0
  handle := false
  get_config_descriptor := 0
  bNumInterfaces := 1
  kernel_driver_active := fun _ => 0
  claim_interface := fun _ => 0
  control_transfer := fun _ => ⟨49, report_of []⟩

/-- The session when `start` reaches `while (running)`: the trace of the
connect phase (init, open, descriptor, claims), no poll yet. -/
def loop_entry {σ : Type} (m : UsbManager) (env : Env) (s : σ) : Session σ :=
  { manager := m, observer := s, polls := 0,
    trace := (m.init env).2
      ++ [.printf (.opening_device 0x054C 0x0268),
          .libusb_open_device_with_vid_pid 0x054C 0x0268]
      ++ [.libusb_get_device, .libusb_get_config_descriptor]
      ++ [.printf (.interfaces env.bNumInterfaces.val),
          .libusb_set_auto_detach_kernel_driver]
      ++ claim_interfaces env env.bNumInterfaces.val }

/-- The session after `n` passes through the loop body. -/
def UsbManager.iterate {σ : Type} (env : Env) (callback : Observer σ) :
    Nat → Session σ → Session σ
  | 0, st => st
  | n + 1, st => UsbManager.iterate env callback n (UsbManager.iteration env callback st)

/-- The session of a run of `start` after `n` iterations of the loop, that
is when iteration `n` (from 0) is about to begin. -/
def session_at {σ : Type} (m : UsbManager) (env : Env) (callback : Observer σ) (s : σ)
    (n : Nat) : Session σ :=
  UsbManager.iterate env callback n (loop_entry m env s)

/-- The three values shown by the roll/yaw/pitch line, if `l` is one. -/
def Line.tilt_shown : Line → Option (Int × Int × Int)
  | .tilt roll yaw pitch => some (roll, yaw, pitch)
  | _ => none

/-- The `timespec` (seconds, nanoseconds) handed to `nanosleep`, if the event
is one. -/
def Event.nanosleep_time : Event → Option (Int × Int)
  | .nanosleep tv_sec tv_nsec => some (tv_sec, tv_nsec)
  | _ => none

/-- The suspensions of a trace, in order, each as (`tv_sec`, `tv_nsec`). -/
def sleeps (trace : List Event) : List (Int × Int) :=
  trace.filterMap Event.nanosleep_time

/-- The interface index, if the event is a `libusb_claim_interface` call. -/
def Event.claimed : Event → Option Nat
  | .libusb_claim_interface iface => some iface
  | _ => none

/-- The interface indices the trace attempts to claim, in order. -/
def claims (trace : List Event) : List Nat :=
  trace.filterMap Event.claimed

/-- The same session with `print_mode` set to the given value. -/
def Session.with_print_mode {σ : Type} (st : Session σ) (print_mode : Bool) : Session σ :=
  { st with manager := { st.manager with print_mode := print_mode } }

/-- A transport whose `libusb_init` fails with -99 (`LIBUSB_ERROR_OTHER`). -/
def env_init_fails : Env where
  putenv := 0
  libusb_init := -99
  handle := true
  get_config_descriptor := 0
  bNumInterfaces := 1
  kernel_driver_active := fun _ => 0
  claim_interface := fun _ => 0
  control_transfer := fun _ => ⟨49, report_of []⟩

/-- A transport with three interfaces on which every claim fails with -6
(`LIBUSB_ERROR_BUSY`); its transfers have the PS button down. -/
def env_claims_fail : Env where
  putenv := 0
  libusb_init := 0
  handle := true
  get_config_descriptor := 0
  bNumInterfaces := 3
  kernel_driver_active := fun _ => 0
  claim_interface := fun _ => -6
  control_transfer := fun _ => ⟨49, report_of [(4, 1)]⟩

/-! ## The decoder -/

theorem decode_field (print_mode : Bool) (input_report : Report) (b : Button) :
    (decode print_mode input_report).1.field b =
      match b with
      | .select => decide ((input_report 2).val = 0x01)
      | .left_three => decide ((input_report 2).val = 0x02)
      | .right_three => decide ((input_report 2).val = 0x04)
      | .start => decide ((input_report 2).val = 0x08)
      | .up => decide ((input_report 2).val = 0x10)
      | .right => decide ((input_report 2).val = 0x20)
      | .down => decide ((input_report 2).val = 0x40)
      | .left => decide ((input_report 2).val = 0x80)
      | .left_two => decide ((input_report 3).val = 0x01)
      | .right_two => decide ((input_report 3).val = 0x02)
      | .left_one => decide ((input_report 3).val = 0x04)
      | .right_one => decide ((input_report 3).val = 0x08)
      | .triangle => decide ((input_report 3).val = 0x10)
      | .circle => decide ((input_report 3).val = 0x20)
      | .cross => decide ((input_report 3).val = 0x40)
      | .square => decide ((input_report 3).val = 0x80)
      | .ps_button => decide ((input_report 4).val ≠ 0) := by
  cases b <;> simp [decode, ps3.field]

/-- Claim C1: for every report, each offset-2 member is true exactly when
`input_report[2]` equals its code; when byte 2 is one of the eight codes, the
member of that code is the only one of the eight that is true; when byte 2 is
none of them (0, or several bits such as 0x30), all eight are false. -/
theorem offset2_group_by_exact_equality (print_mode : Bool) (input_report : Report) :
    (∀ p ∈ offset2_codes,
      ((decode print_mode input_report).1.field p.2 = true ↔ (input_report 2).val = p.1))
    ∧ (∀ p ∈ offset2_codes, (input_report 2).val = p.1 →
        ∀ q ∈ offset2_codes,
          ((decode print_mode input_report).1.field q.2 = true ↔ q.2 = p.2))
    ∧ ((∀ p ∈ offset2_codes, (input_report 2).val ≠ p.1) →
        ∀ q ∈ offset2_codes, (decode print_mode input_report).1.field q.2 = false) := by
  simp only [decode_field]
  generalize (input_report 2).val = x
  refine ⟨?_, ?_, ?_⟩
  · simp [offset2_codes]
  · intro p hp h q hq
    simp only [offset2_codes, List.mem_cons, List.mem_singleton, List.not_mem_nil,
      or_false] at hp hq
    rcases hp with rfl | rfl | rfl | rfl | rfl | rfl | rfl | rfl <;>
    rcases hq with rfl | rfl | rfl | rfl | rfl | rfl | rfl | rfl <;>
    subst h <;> simp
  · intro h q hq
    simp only [offset2_codes, List.mem_cons, List.mem_singleton, List.not_mem_nil,
      or_false] at hq
    simp [offset2_codes] at h
    rcases hq with rfl | rfl | rfl | rfl | rfl | rfl | rfl | rfl <;>
    simp [h]

/-- Witness of C1: byte 2 = 0x10 gives `up` and not `left`; byte 2 = 0x30
gives no `up`. -/
theorem offset2_group_by_exact_equality_witness :
    (decode false (report_of [(2, 0x10)])).1.field .up = true
    ∧ ((decode false (report_of [(2, 0x10)])).1.field .left = true ↔ Button.left = Button.up)
    ∧ (decode false (report_of [(2, 0x30)])).1.field .up = false :=
  ⟨((offset2_group_by_exact_equality false (report_of [(2, 0x10)])).1
      (0x10, .up) (by decide)).2 (by decide),
   (offset2_group_by_exact_equality false (report_of [(2, 0x10)])).2.1
      (0x10, .up) (by decide) (by decide) (0x80, .left) (by decide),
   (offset2_group_by_exact_equality false (report_of [(2, 0x30)])).2.2
      (by decide) (0x10, .up) (by decide)⟩

/-- Claim C2: for every report, each offset-3 member is true exactly when
`input_report[3]` equals its code; when byte 3 is one of the eight codes, the
member of that code is the only one of the eight that is true; when byte 3 is
none of them, all eight are false. -/
theorem offset3_group_by_exact_equality (print_mode : Bool) (input_report : Report) :
    (∀ p ∈ offset3_codes,
      ((decode print_mode input_report).1.field p.2 = true ↔ (input_report 3).val = p.1))
    ∧ (∀ p ∈ offset3_codes, (input_report 3).val = p.1 →
        ∀ q ∈ offset3_codes,
          ((decode print_mode input_report).1.field q.2 = true ↔ q.2 = p.2))
    ∧ ((∀ p ∈ offset3_codes, (input_report 3).val ≠ p.1) →
        ∀ q ∈ offset3_codes, (decode print_mode input_report).1.field q.2 = false) := by
  simp only [decode_field]
  generalize (input_report 3).val = x
  refine ⟨?_, ?_, ?_⟩
  · simp [offset3_codes]
  · intro p hp h q hq
    simp only [offset3_codes, List.mem_cons, List.mem_singleton, List.not_mem_nil,
      or_false] at hp hq
    rcases hp with rfl | rfl | rfl | rfl | rfl | rfl | rfl | rfl <;>
    rcases hq with rfl | rfl | rfl | rfl | rfl | rfl | rfl | rfl <;>
    subst h <;> simp
  · intro h q hq
    simp only [offset3_codes, List.mem_cons, List.mem_singleton, List.not_mem_nil,
      or_false] at hq
    simp [offset3_codes] at h
    rcases hq with rfl | rfl | rfl | rfl | rfl | rfl | rfl | rfl <;>
    simp [h]

/-- Witness of C2: byte 3 = 0x40 gives `cross` and not `square`; byte 3 = 0x03
gives no `left_two`. -/
theorem offset3_group_by_exact_equality_witness :
    (decode true (report_of [(3, 0x40)])).1.field .cross = true
    ∧ ((decode true (report_of [(3, 0x40)])).1.field .square = true
        ↔ Button.square = Button.cross)
    ∧ (decode true (report_of [(3, 0x03)])).1.field .left_two = false :=
  ⟨((offset3_group_by_exact_equality true (report_of [(3, 0x40)])).1
      (0x40, .cross) (by decide)).2 (by decide),
   (offset3_group_by_exact_equality true (report_of [(3, 0x40)])).2.1
      (0x40, .cross) (by decide) (by decide) (0x80, .square) (by decide),
   (offset3_group_by_exact_equality true (report_of [(3, 0x03)])).2.2
      (by decide) (0x01, .left_two) (by decide)⟩

theorem to_int8_byte (b : Nat) (hb : b < 256) :
    to_int8 (b : Int) = if b ≤ 127 then (b : Int) else (b : Int) - 256 := by
  unfold to_int8
  have h : ((b : Int) % 256) = b := Int.emod_eq_of_lt (by omega) (by omega)
  simp only [h]
  split_ifs <;> omega

theorem acceleration_shown_pressed (print_mode hit : Bool) (b : Button) :
    (pressed print_mode hit b).filterMap Line.acceleration_shown = [] := by
  cases print_mode <;> cases hit <;> rfl

/-- Counterexample to C5 as stated: with byte 48 = 255 the stored
`acceleration` is 255, not 255 - 256 = -1. -/
theorem acceleration_stored_unsigned_at_255 :
    (report_of [(48, 255)] 48).val = 255
    ∧ (decode false (report_of [(48, 255)])).1.acceleration = 255
    ∧ (decode false (report_of [(48, 255)])).1.acceleration ≠ 255 - 256 := by
  decide

/-- Claim C5, amended: the stored `acceleration` is the unsigned value of
byte 48, in `0 .. 255`; the signed 8-bit reinterpretation (`b` when
`b <= 127`, `b - 256` otherwise) is the value of the one acceleration line
`process` displays in print mode, and nothing is displayed without print
mode. -/
theorem acceleration_stored_raw_displayed_signed (print_mode : Bool)
    (input_report : Report) :
    (decode print_mode input_report).1.acceleration = ((input_report 48).val : Int)
    ∧ 0 ≤ (decode print_mode input_report).1.acceleration
    ∧ (decode print_mode input_report).1.acceleration ≤ 255
    ∧ (decode true input_report).2.filterMap Line.acceleration_shown
      = [if (input_report 48).val ≤ 127 then ((input_report 48).val : Int)
         else (input_report 48).val - 256]
    ∧ (decode false input_report).2.filterMap Line.acceleration_shown = [] := by
  have hb := (input_report 48).isLt
  refine ⟨rfl, ?_, ?_, ?_, ?_⟩
  · simp [decode]
  · simp [decode]; omega
  · simp only [decode, List.filterMap_append, acceleration_shown_pressed, List.nil_append]
    simp [pr, Line.acceleration_shown, to_int8_byte _ hb]
  · simp only [decode, List.filterMap_append, acceleration_shown_pressed, List.nil_append]
    simp [pr]

/-! ## Edge detection in the observer of `main` -/

theorem count_edge (b c : Button) (info oldData : ps3) :
    (edge info oldData c).count (Action.printf (.edge b))
      = if c = b ∧ info.field c = true ∧ oldData.field c = false then 1 else 0 := by
  unfold edge
  by_cases hc : c = b
  · subst hc
    cases info.field c <;> cases oldData.field c <;> simp
  · cases info.field c <;> cases oldData.field c <;> simp [hc, List.count_cons]

theorem count_edge_stop (b : Button) (p : Bool) :
    (if p then [Action.stop] else []).count (Action.printf (.edge b)) = 0 := by
  cases p <;> simp

theorem edge_events_main_callback (b : Button) (info oldData : ps3) :
    edge_events b (main_callback info oldData).2
      = if b ≠ .ps_button ∧ info.field b = true ∧ oldData.field b = false then 1 else 0 := by
  simp only [edge_events, main_callback, List.count_append, count_edge, count_edge_stop]
  cases b <;> simp

/-- Counterexample to C7 as stated: `ps_button` goes from false to true and
the call emits no edge event for it. -/
theorem ps_button_rising_no_edge :
    ({} : ps3).field .ps_button = false
    ∧ ({ ps_button := true } : ps3).field .ps_button = true
    ∧ edge_events .ps_button (main_callback { ps_button := true } {}).2 = 0 := by
  decide

/-- Claim C7, amended: for a member that is false in the previous state and
true in the new one, the call emits exactly one edge event for it when it is
one of the sixteen members other than `ps_button`; for `ps_button` it emits no
edge event and calls `stop()`; the new state replaces the previous one. -/
theorem edge_on_rising_field (b : Button) (oldData info : ps3)
    (hold : oldData.field b = false) (hnew : info.field b = true) :
    (b ≠ .ps_button → edge_events b (main_callback info oldData).2 = 1)
    ∧ (b = .ps_button → edge_events b (main_callback info oldData).2 = 0
        ∧ Action.stop ∈ (main_callback info oldData).2)
    ∧ (main_callback info oldData).1 = info := by
  refine ⟨?_, ?_, rfl⟩
  · intro hb
    rw [edge_events_main_callback]; simp [hb, hold, hnew]
  · intro hb
    subst hb
    refine ⟨by rw [edge_events_main_callback]; simp, ?_⟩
    simp only [ps3.field] at hnew
    simp [main_callback, hnew]

/-- Witness of C7: `left` rising from the all-false initial state. -/
theorem edge_on_rising_field_witness :
    ({} : ps3).field .left = false
    ∧ ({ left := true } : ps3).field .left = true
    ∧ edge_events .left (main_callback { left := true } {}).2 = 1 :=
  ⟨rfl, rfl, (edge_on_rising_field .left {} { left := true } rfl rfl).1 (by decide)⟩

/-- Claim C8: for every member and every pair of consecutive states, a
transition other than false to true (the member was true before, or is false
now) emits no edge event for it; and for two consecutive reports with byte 3
equal to 0x10, `triangle` is true in both decoded states and the second call
emits no edge event for `triangle`. -/
theorem no_edge_unless_rising :
    (∀ (b : Button) (oldData info : ps3),
      (oldData.field b = true ∨ info.field b = false) →
        edge_events b (main_callback info oldData).2 = 0)
    ∧ (∀ (print_mode : Bool) (first second : Report) (oldData : ps3),
        (first 3).val = 0x10 → (second 3).val = 0x10 →
          (decode print_mode first).1.triangle = true
          ∧ (decode print_mode second).1.triangle = true
          ∧ edge_events .triangle
              (main_callback (decode print_mode second).1
                (main_callback (decode print_mode first).1 oldData).1).2 = 0) := by
  have key : ∀ (b : Button) (oldData info : ps3),
      (oldData.field b = true ∨ info.field b = false) →
        edge_events b (main_callback info oldData).2 = 0 := by
    intro b oldData info h
    rw [edge_events_main_callback]
    rcases h with h | h <;> simp [h]
  refine ⟨key, ?_⟩
  intro pm first second oldData h1 h2
  have t1 : (decode pm first).1.triangle = true := by simp [decode, h1]
  have t2 : (decode pm second).1.triangle = true := by simp [decode, h2]
  refine ⟨t1, t2, key _ _ _ (Or.inl ?_)⟩
  show (decode pm first).1.field .triangle = true
  exact t1

/-- Witness of C8: `cross` held emits nothing; triangle held over two polls
emits nothing the second time. -/
theorem no_edge_unless_rising_witness :
    edge_events .cross (main_callback { cross := true } { cross := true }).2 = 0
    ∧ edge_events .triangle
        (main_callback (decode true (report_of [(3, 0x10)])).1
          (main_callback (decode true (report_of [(3, 0x10)])).1 {}).1).2 = 0 :=
  ⟨no_edge_unless_rising.1 .cross { cross := true } { cross := true } (Or.inl rfl),
   (no_edge_unless_rising.2 true (report_of [(3, 0x10)]) (report_of [(3, 0x10)]) {}
      (by decide) (by decide)).2.2⟩

/-! ## The session -/

section
variable {σ : Type}

theorem perform_events (m : UsbManager) (actions : List Action) :
    (m.perform actions).2 = actions.map Action.event := by
  induction actions generalizing m with
  | nil => rfl
  | cons a rest ih =>
    cases a with
    | stop => simp [UsbManager.perform, UsbManager.stop, ih, Action.event]
    | printf l => simp [UsbManager.perform, ih, Action.event]

theorem perform_manager (m : UsbManager) (actions : List Action) :
    (m.perform actions).1
      = if Action.stop ∈ actions then { m with running := false } else m := by
  induction actions generalizing m with
  | nil => rfl
  | cons a rest ih =>
    cases a with
    | stop =>
      simp only [UsbManager.perform, UsbManager.stop, ih]
      simp
    | printf l =>
      simp only [UsbManager.perform, ih]
      simp

theorem process_ok (env : Env) (callback : Observer σ) (st : Session σ)
    (h : 0 ≤ (env.control_transfer st.polls).ret) :
    UsbManager.process env callback st
      = (0, { manager := (st.manager.perform (callback (decode st.manager.print_mode
                  (env.control_transfer st.polls).input_report).1 st.observer).2).1
              observer := (callback (decode st.manager.print_mode
                  (env.control_transfer st.polls).input_report).1 st.observer).1
              polls := st.polls + 1
              trace := st.trace ++ (pr st.manager.print_mode .reading_report).map .printf
                ++ [.libusb_control_transfer]
                ++ (decode st.manager.print_mode
                      (env.control_transfer st.polls).input_report).2.map .printf
                ++ [.callback (decode st.manager.print_mode
                      (env.control_transfer st.polls).input_report).1]
                ++ (callback (decode st.manager.print_mode
                      (env.control_transfer st.polls).input_report).1 st.observer).2.map
                    Action.event }) := by
  simp only [UsbManager.process, if_neg (not_lt.mpr h), perform_events]

theorem process_err (env : Env) (callback : Observer σ) (st : Session σ)
    (h : (env.control_transfer st.polls).ret < 0) :
    UsbManager.process env callback st
      = (-1, { st with
              polls := st.polls + 1
              trace := st.trace ++ (pr st.manager.print_mode .reading_report).map .printf
                ++ [.libusb_control_transfer]
                ++ [.perr (.strerror (env.control_transfer st.polls).ret)] }) := by
  simp only [UsbManager.process, if_pos h]


theorem perform_print_mode (m : UsbManager) (actions : List Action) :
    (m.perform actions).1.print_mode = m.print_mode
    ∧ (m.perform actions).1.sleep_time = m.sleep_time
    ∧ (m.perform actions).1.debug_mode = m.debug_mode := by
  rw [perform_manager]; split_ifs <;> simp

theorem iteration_config (env : Env) (callback : Observer σ) (st : Session σ) :
    (UsbManager.iteration env callback st).manager.print_mode = st.manager.print_mode
    ∧ (UsbManager.iteration env callback st).manager.sleep_time = st.manager.sleep_time
    ∧ (UsbManager.iteration env callback st).polls = st.polls + 1 := by
  unfold UsbManager.iteration
  by_cases h : (env.control_transfer st.polls).ret < 0
  · rw [process_err env callback st h]
    dsimp only
    split_ifs <;> simp
  · rw [process_ok env callback st (not_lt.mp h)]
    dsimp only
    have := perform_print_mode st.manager (callback (decode st.manager.print_mode
                  (env.control_transfer st.polls).input_report).1 st.observer).2
    split_ifs <;> simp [this]

theorem iterate_config (env : Env) (callback : Observer σ) (n : Nat) (st : Session σ) :
    (UsbManager.iterate env callback n st).manager.print_mode = st.manager.print_mode
    ∧ (UsbManager.iterate env callback n st).manager.sleep_time = st.manager.sleep_time
    ∧ (UsbManager.iterate env callback n st).polls = st.polls + n := by
  induction n generalizing st with
  | zero => simp [UsbManager.iterate]
  | succ n ih =>
    have h1 := ih (UsbManager.iteration env callback st)
    have h2 := iteration_config env callback st
    simp only [UsbManager.iterate]
    refine ⟨by rw [h1.1, h2.1], by rw [h1.2.1, h2.2.1], by rw [h1.2.2, h2.2.2]; omega⟩

theorem iterate_succ (env : Env) (callback : Observer σ) (n : Nat) (st : Session σ) :
    UsbManager.iterate env callback (n + 1) st
      = UsbManager.iteration env callback (UsbManager.iterate env callback n st) := by
  induction n generalizing st with
  | zero => rfl
  | succ n ih =>
    show UsbManager.iterate env callback (n + 1) (UsbManager.iteration env callback st) = _
    rw [ih]; rfl

theorem loop_first_stop (env : Env) (callback : Observer σ) (n fuel : Nat) (st : Session σ)
    (hrun : ∀ i < n, (UsbManager.iterate env callback i st).manager.running = true)
    (hstop : (UsbManager.iterate env callback n st).manager.running = false)
    (hfuel : n ≤ fuel) :
    UsbManager.loop env callback fuel st = some (UsbManager.iterate env callback n st) := by
  induction n generalizing st fuel with
  | zero =>
    simp only [UsbManager.iterate] at hstop ⊢
    cases fuel <;> simp [UsbManager.loop, hstop]
  | succ n ih =>
    obtain ⟨fuel, rfl⟩ : ∃ f, fuel = f + 1 := ⟨fuel - 1, by omega⟩
    have h0 : st.manager.running = true := hrun 0 (by omega)
    simp only [UsbManager.loop, h0, if_true, UsbManager.iterate]
    exact ih fuel (UsbManager.iteration env callback st)
      (fun i hi => hrun (i + 1) (by omega)) hstop (by omega)

theorem start_connected (m : UsbManager) (env : Env) (callback : Observer σ) (s : σ)
    (fuel : Nat) (hinit : 0 ≤ env.libusb_init) (hopen : env.handle = true)
    (hconf : 0 ≤ env.get_config_descriptor) :
    m.start env callback s fuel
      = (UsbManager.loop env callback fuel (loop_entry m env s)).map fun st =>
          (0, { st with trace := st.trace ++ teardown env.bNumInterfaces.val }) := by
  have hi : ¬ (m.init env).1 < 0 := by
    unfold UsbManager.init
    dsimp only
    split_ifs <;> omega
  unfold UsbManager.start loop_entry
  simp only [hi, if_false, hopen, not_lt.mpr hconf]
  simp only [ne_eq, not_true_eq_false, if_false, Bool.not_true, Bool.false_eq_true,
    List.append_assoc]
  cases UsbManager.loop env callback fuel _ <;> rfl


theorem calls_append (a b : List Event) : calls (a ++ b) = calls a ++ calls b := by
  simp [calls]

theorem calls_map_printf (ls : List Line) : calls (ls.map Event.printf) = [] := by
  simp [calls, Event.is_console]

theorem calls_map_event (actions : List Action) : calls (actions.map Action.event) = [] := by
  simp only [calls, List.filter_eq_nil_iff, List.mem_map]
  rintro e ⟨a, -, rfl⟩
  cases a <;> simp [Action.event, Event.is_console]

theorem calls_nil : calls [] = [] := rfl

theorem calls_cons (e : Event) (l : List Event) :
    calls (e :: l) = if e.is_console then calls l else e :: calls l := by
  cases h : e.is_console <;> simp [calls, h]

theorem calls_msleep (msecs : Int) : calls (msleep msecs) = msleep msecs := rfl

theorem calls_iteration (env : Env) (callback : Observer σ) (st : Session σ) :
    calls (UsbManager.iteration env callback st).trace
      = calls st.trace ++ [.libusb_control_transfer]
        ++ (if 0 ≤ (env.control_transfer st.polls).ret then
              [.callback (decode st.manager.print_mode
                (env.control_transfer st.polls).input_report).1]
            else [])
        ++ (if 0 < st.manager.sleep_time then msleep st.manager.sleep_time else []) := by
  unfold UsbManager.iteration
  by_cases h : (env.control_transfer st.polls).ret < 0
  · rw [process_err env callback st h]
    dsimp only
    rw [if_neg (not_le.mpr h)]
    split_ifs <;>
      simp [calls_append, calls_map_printf, calls_cons, calls_nil, calls_msleep, Event.is_console]
  · rw [process_ok env callback st (not_lt.mp h)]
    dsimp only
    rw [if_pos (not_lt.mp h), (perform_print_mode _ _).2.1]
    split_ifs <;>
      simp [calls_append, calls_map_printf, calls_map_event, calls_cons, calls_nil, calls_msleep,
        Event.is_console]


theorem mem_calls (e : Event) (trace : List Event) :
    e ∈ calls trace ↔ e ∈ trace ∧ e.is_console = false := by
  simp [calls]

theorem no_teardown_of_calls (trace : List Event)
    (h : ∀ e ∈ calls trace, e.is_teardown = false) :
    ∀ e ∈ trace, e.is_teardown = false := by
  intro e he
  cases hc : e.is_console
  · exact h e ((mem_calls e trace).2 ⟨he, hc⟩)
  · cases e <;> simp_all [Event.is_console, Event.is_teardown]

theorem no_teardown_iteration (env : Env) (callback : Observer σ) (st : Session σ)
    (h : ∀ e ∈ calls st.trace, e.is_teardown = false) :
    ∀ e ∈ calls (UsbManager.iteration env callback st).trace, e.is_teardown = false := by
  intro e he
  rw [calls_iteration] at he
  simp only [List.mem_append, List.mem_singleton] at he
  rcases he with ((he | he) | he) | he
  · exact h e he
  · subst he; rfl
  · split_ifs at he
    · simp only [List.mem_singleton] at he; subst he; rfl
    · simp at he
  · split_ifs at he
    · simp only [msleep, List.mem_singleton] at he; subst he; rfl
    · simp at he

theorem no_teardown_iterate (env : Env) (callback : Observer σ) (n : Nat) (st : Session σ)
    (h : ∀ e ∈ calls st.trace, e.is_teardown = false) :
    ∀ e ∈ calls (UsbManager.iterate env callback n st).trace, e.is_teardown = false := by
  induction n generalizing st with
  | zero => exact h
  | succ n ih => exact ih _ (no_teardown_iteration env callback st h)

theorem mem_loop_entry (m : UsbManager) (env : Env) (s : σ) :
    ∀ e ∈ (loop_entry m env s).trace,
      e.is_teardown = false ∧ e ≠ .libusb_control_transfer ∧ ∀ data, e ≠ .callback data := by
  intro e he
  simp only [loop_entry, UsbManager.init, claim_interfaces, List.mem_append,
    List.mem_flatMap, List.mem_cons, List.mem_singleton] at he
  rcases he with (((he | he) | he) | he) | ⟨i, -, he⟩
  · split_ifs at he <;> simp at he <;> rcases he with rfl | rfl | rfl <;>
      simp [Event.is_teardown]
  · rcases he with rfl | rfl | he
    · simp [Event.is_teardown]
    · simp [Event.is_teardown]
    · simp at he
  · rcases he with rfl | rfl | he
    · simp [Event.is_teardown]
    · simp [Event.is_teardown]
    · simp at he
  · rcases he with rfl | rfl | he
    · simp [Event.is_teardown]
    · simp [Event.is_teardown]
    · simp at he
  · rcases he with (rfl | rfl | rfl | rfl | he) | he
    · simp [Event.is_teardown]
    · simp [Event.is_teardown]
    · simp [Event.is_teardown]
    · simp [Event.is_teardown]
    · simp at he
    · split_ifs at he <;> simp at he
      subst he; simp [Event.is_teardown]

theorem transfers_loop_entry (m : UsbManager) (env : Env) (s : σ) :
    transfers (loop_entry m env s).trace = 0 := by
  unfold transfers
  rw [List.count_eq_zero]
  intro h
  exact (mem_loop_entry m env s _ h).2.1 rfl

theorem transfers_calls (trace : List Event) : transfers (calls trace) = transfers trace := by
  unfold transfers calls
  rw [List.count_filter]
  rfl

theorem transfers_iteration (env : Env) (callback : Observer σ) (st : Session σ) :
    transfers (UsbManager.iteration env callback st).trace = transfers st.trace + 1 := by
  rw [← transfers_calls, calls_iteration, ← transfers_calls st.trace]
  unfold transfers
  simp only [List.count_append]
  have h1 : List.count Event.libusb_control_transfer
      (if 0 ≤ (env.control_transfer st.polls).ret then
        [Event.callback (decode st.manager.print_mode
          (env.control_transfer st.polls).input_report).1]
       else []) = 0 := by
    split_ifs <;> simp [List.count_cons]
  have h2 : List.count Event.libusb_control_transfer
      (if 0 < st.manager.sleep_time then msleep st.manager.sleep_time else []) = 0 := by
    split_ifs <;> simp [List.count_cons, msleep]
  rw [h1, h2]
  simp

theorem transfers_iterate (env : Env) (callback : Observer σ) (n : Nat) (st : Session σ) :
    transfers (UsbManager.iterate env callback n st).trace = transfers st.trace + n := by
  induction n generalizing st with
  | zero => rfl
  | succ n ih =>
    simp only [UsbManager.iterate]
    rw [ih, transfers_iteration]; omega

theorem teardown_calls (nb_ifaces : Nat) :
    calls (teardown nb_ifaces)
      = (List.range nb_ifaces).map Event.libusb_release_interface
        ++ [.libusb_close, .libusb_exit] := by
  have h : ∀ l : List Nat,
      calls (l.flatMap fun iface =>
        [Event.printf (.releasing iface), Event.libusb_release_interface iface])
        = l.map Event.libusb_release_interface := by
    intro l
    induction l with
    | nil => rfl
    | cons a l ih =>
      simp only [List.flatMap_cons, calls_append, ih, List.map_cons]
      simp [calls_cons, calls_nil, Event.is_console]
  simp only [teardown, release_interfaces, calls_append, h]
  simp [calls_cons, calls_nil, Event.is_console]

/-- Claim C10: when initialisation succeeded and the open returns a null
handle, `start` returns -1 whatever the fuel, having made no poll; its trace
is the init calls, the open and the `Failed.` line, and holds no interface
claim, no control transfer and no callback invocation. -/
theorem no_device_fails_before_loop (m : UsbManager) (env : Env) (callback : Observer σ)
    (s : σ) (fuel : Nat) (hinit : 0 ≤ env.libusb_init) (hopen : env.handle = false) :
    m.start env callback s fuel
      = some (-1, { manager := m, observer := s, polls := 0,
                    trace := (m.init env).2
                      ++ [.printf (.opening_device 0x054C 0x0268),
                          .libusb_open_device_with_vid_pid 0x054C 0x0268]
                      ++ [.perr .failed] })
    ∧ ∀ e ∈ (m.init env).2
          ++ [.printf (.opening_device 0x054C 0x0268),
              .libusb_open_device_with_vid_pid 0x054C 0x0268]
          ++ [.perr .failed],
        (∀ iface, e ≠ .libusb_claim_interface iface)
          ∧ e ≠ .libusb_control_transfer ∧ (∀ data, e ≠ .callback data) := by
  have hi : ¬ (m.init env).1 < 0 := by
    unfold UsbManager.init
    dsimp only
    split_ifs <;> omega
  refine ⟨?_, ?_⟩
  · unfold UsbManager.start
    simp only [hi, if_false, hopen]
    simp only [ne_eq, not_true_eq_false, if_false, Bool.not_false, if_true]
  · intro e he
    simp only [UsbManager.init, List.mem_append, List.mem_cons, List.mem_singleton] at he
    rcases he with (he | he) | he
    · split_ifs at he <;> simp at he <;> rcases he with rfl | rfl | rfl <;> simp
    · rcases he with rfl | rfl | he
      · simp
      · simp
      · simp at he
    · rcases he with rfl | he
      · simp
      · simp at he


theorem transfers_teardown (nb_ifaces : Nat) : transfers (teardown nb_ifaces) = 0 := by
  rw [← transfers_calls, teardown_calls]
  unfold transfers
  rw [List.count_eq_zero]
  simp

theorem session_at_config (m : UsbManager) (env : Env) (callback : Observer σ) (s : σ)
    (n : Nat) :
    (session_at m env callback s n).manager.print_mode = m.print_mode
    ∧ (session_at m env callback s n).manager.sleep_time = m.sleep_time
    ∧ (session_at m env callback s n).polls = n := by
  have h := iterate_config env callback n (loop_entry m env s)
  refine ⟨h.1, h.2.1, ?_⟩
  rw [session_at, h.2.2]
  simp [loop_entry]

/-- Claim C9: in a run that reached the loop, if `running` is first false
after `n` iterations (so the loop exits), `start` returns 0 for any fuel of at
least `n`; its trace is the trace up to the loop exit followed by the teardown,
whose calls are exactly the release of interfaces `0 .. nb_ifaces - 1` in
increasing order, then `libusb_close`, then `libusb_exit` (no poll, no
callback); and none of these calls occurs before the loop exit. -/
theorem teardown_once_after_stop (m : UsbManager) (env : Env) (callback : Observer σ)
    (s : σ) (n fuel : Nat) (hinit : 0 ≤ env.libusb_init) (hopen : env.handle = true)
    (hconf : 0 ≤ env.get_config_descriptor)
    (hrun : ∀ i < n, (session_at m env callback s i).manager.running = true)
    (hstop : (session_at m env callback s n).manager.running = false)
    (hfuel : n ≤ fuel) :
    m.start env callback s fuel
      = some (0, { session_at m env callback s n with
                   trace := (session_at m env callback s n).trace
                     ++ teardown env.bNumInterfaces.val })
    ∧ calls (teardown env.bNumInterfaces.val)
        = (List.range env.bNumInterfaces.val).map Event.libusb_release_interface
          ++ [.libusb_close, .libusb_exit]
    ∧ ∀ e ∈ (session_at m env callback s n).trace, e.is_teardown = false := by
  refine ⟨?_, teardown_calls _, ?_⟩
  · rw [start_connected m env callback s fuel hinit hopen hconf,
      loop_first_stop env callback n fuel (loop_entry m env s) hrun hstop hfuel]
    rfl
  · apply no_teardown_of_calls
    apply no_teardown_iterate
    intro e he
    exact (mem_loop_entry m env s e ((mem_calls e _).1 he).1).1

/-- Claim C4: in a run that reached the loop and began iteration `n`, if
transfer `n` succeeds and the callback then calls `stop()`, iteration `n`
runs to its end: everything the callback did is in the trace after the
callback invocation, followed by the sleep if one is configured; the calls of
the iteration are the transfer, the callback and the sleep (no release, no
close); the captured state is the one the callback returned; `running` is
false afterwards; `start` returns 0 with the teardown right after this
iteration; and the whole run made exactly `n + 1` control transfers. -/
theorem stop_in_callback_ends_loop (m : UsbManager) (env : Env) (callback : Observer σ)
    (s : σ) (n fuel : Nat) (hinit : 0 ≤ env.libusb_init) (hopen : env.handle = true)
    (hconf : 0 ≤ env.get_config_descriptor)
    (hrun : ∀ i ≤ n, (session_at m env callback s i).manager.running = true)
    (hok : 0 ≤ (env.control_transfer n).ret)
    (hstop : Action.stop ∈
      (callback (decode m.print_mode (env.control_transfer n).input_report).1
        (session_at m env callback s n).observer).2)
    (hfuel : n < fuel) :
    (session_at m env callback s (n + 1)).trace
      = (session_at m env callback s n).trace
        ++ (pr m.print_mode .reading_report).map .printf
        ++ [.libusb_control_transfer]
        ++ (decode m.print_mode (env.control_transfer n).input_report).2.map .printf
        ++ [.callback (decode m.print_mode (env.control_transfer n).input_report).1]
        ++ (callback (decode m.print_mode (env.control_transfer n).input_report).1
              (session_at m env callback s n).observer).2.map Action.event
        ++ (if 0 < m.sleep_time then msleep m.sleep_time else [])
    ∧ calls (session_at m env callback s (n + 1)).trace
      = calls (session_at m env callback s n).trace
        ++ [.libusb_control_transfer,
            .callback (decode m.print_mode (env.control_transfer n).input_report).1]
        ++ (if 0 < m.sleep_time then msleep m.sleep_time else [])
    ∧ (session_at m env callback s (n + 1)).observer
      = (callback (decode m.print_mode (env.control_transfer n).input_report).1
          (session_at m env callback s n).observer).1
    ∧ (session_at m env callback s (n + 1)).manager.running = false
    ∧ m.start env callback s fuel
      = some (0, { session_at m env callback s (n + 1) with
                   trace := (session_at m env callback s (n + 1)).trace
                     ++ teardown env.bNumInterfaces.val })
    ∧ transfers ((session_at m env callback s (n + 1)).trace
        ++ teardown env.bNumInterfaces.val) = n + 1 := by
  obtain ⟨hpm, hsl, hpolls⟩ := session_at_config m env callback s n
  have hnext : session_at m env callback s (n + 1)
      = UsbManager.iteration env callback (session_at m env callback s n) :=
    iterate_succ env callback n (loop_entry m env s)
  have hok' : 0 ≤ (env.control_transfer (session_at m env callback s n).polls).ret := by
    rw [hpolls]; exact hok
  have hproc := process_ok env callback (session_at m env callback s n) hok'
  rw [hpolls, hpm] at hproc
  have hperf := perform_print_mode (session_at m env callback s n).manager
    (callback (decode m.print_mode (env.control_transfer n).input_report).1
      (session_at m env callback s n).observer).2
  have hrunning : (session_at m env callback s (n + 1)).manager.running = false := by
    rw [hnext]
    unfold UsbManager.iteration
    rw [hproc]
    dsimp only
    split_ifs <;> simp [perform_manager, hstop]
  refine ⟨?_, ?_, ?_, hrunning, ?_, ?_⟩
  · rw [hnext]
    unfold UsbManager.iteration
    rw [hproc]
    dsimp only
    rw [hperf.2.1, hsl]
    split_ifs <;> simp
  · rw [hnext, calls_iteration, hpolls, hpm, hsl, if_pos hok]
    simp
  · rw [hnext]
    unfold UsbManager.iteration
    rw [hproc]
    dsimp only
    split_ifs <;> rfl
  · rw [start_connected m env callback s fuel hinit hopen hconf,
      loop_first_stop env callback (n + 1) fuel (loop_entry m env s)
        (fun i hi => hrun i (by omega)) hrunning (by omega)]
    rfl
  · unfold transfers
    rw [List.count_append]
    have h1 := transfers_iterate env callback (n + 1) (loop_entry m env s)
    rw [transfers_loop_entry] at h1
    have h2 := transfers_teardown env.bNumInterfaces.val
    unfold transfers at h1 h2
    rw [session_at, h1, h2]
    omega


theorem callbacks_append (a b : List Event) :
    callbacks (a ++ b) = callbacks a ++ callbacks b := by
  simp [callbacks]

theorem callbacks_map_printf (ls : List Line) : callbacks (ls.map Event.printf) = [] := by
  simp [callbacks, Event.callback_data]

theorem callbacks_map_event (actions : List Action) :
    callbacks (actions.map Action.event) = [] := by
  simp only [callbacks, List.filterMap_eq_nil_iff, List.mem_map]
  rintro e ⟨a, -, rfl⟩
  cases a <;> simp [Action.event, Event.callback_data]

/-- Claim C6, amended: `process` checks no length. Whenever the transfer
returns a non-negative count, fewer than 49 included, `process` decodes the
buffer as it stands, invokes the callback exactly once, with the decoded
state, and returns 0. -/
theorem short_report_still_decoded (env : Env) (callback : Observer σ) (st : Session σ)
    (hret : 0 ≤ (env.control_transfer st.polls).ret) :
    (UsbManager.process env callback st).1 = 0
    ∧ callbacks (UsbManager.process env callback st).2.trace
      = callbacks st.trace
        ++ [(decode st.manager.print_mode (env.control_transfer st.polls).input_report).1]
    ∧ (UsbManager.process env callback st).2.observer
      = (callback (decode st.manager.print_mode
          (env.control_transfer st.polls).input_report).1 st.observer).1 := by
  rw [process_ok env callback st hret]
  refine ⟨rfl, ?_, rfl⟩
  dsimp only
  simp only [callbacks_append, callbacks_map_printf, callbacks_map_event, List.append_nil]
  simp [callbacks, Event.callback_data]

/-- Witness of C6: a transfer of 10 bytes; `process` returns 0. -/
theorem short_report_still_decoded_witness :
    (env_short_transfer.control_transfer 0).ret = 10
    ∧ (UsbManager.process env_short_transfer main_callback
        { manager := UsbManager.new 0 false false, observer := {}, polls := 0,
          trace := [] }).1 = 0 :=
  ⟨rfl, (short_report_still_decoded env_short_transfer main_callback
      { manager := UsbManager.new 0 false false, observer := {}, polls := 0, trace := [] }
      (by decide)).1⟩

/-- Counterexample to C6 as stated: the transfer delivers 10 bytes, fewer than
49, and `process` returns 0 having invoked the callback with a decoded state. -/
theorem short_report_invokes_callback :
    (env_short_transfer.control_transfer 0).ret = 10
    ∧ (UsbManager.process env_short_transfer main_callback
        { manager := UsbManager.new 0 false false, observer := {}, polls := 0,
          trace := [] }).1 = 0
    ∧ callbacks (UsbManager.process env_short_transfer main_callback
        { manager := UsbManager.new 0 false false, observer := {}, polls := 0,
          trace := [] }).2.trace = [{ triangle := true }] := by
  decide

/-- Claim C3 fails on the code: the first transfer returns -4; `start` goes on
to a second control transfer, and returns 0 once the callback has stopped the
loop. -/
theorem poll_error_not_propagated :
    (env_transfer_error.control_transfer 0).ret = -4
    ∧ ((UsbManager.new 0 false false).start env_transfer_error main_callback {} 2).map
        (fun r => (r.1, r.2.polls, calls r.2.trace))
      = some (0, 2,
          [.libusb_set_log_level, .libusb_init,
           .libusb_open_device_with_vid_pid 0x054C 0x0268,
           .libusb_get_device, .libusb_get_config_descriptor,
           .libusb_set_auto_detach_kernel_driver,
           .libusb_kernel_driver_active 0, .libusb_claim_interface 0,
           .libusb_control_transfer,
           .libusb_control_transfer, .callback { ps_button := true },
           .libusb_release_interface 0, .libusb_close, .libusb_exit]) := by
  decide

/-- Witness of C10: no device, no fuel; `start` returns -1. -/
theorem no_device_fails_before_loop_witness :
    ((UsbManager.new 0 true true).start env_no_device main_callback {} 0).map (fun r => r.1)
      = some (-1) := by
  rw [(no_device_fails_before_loop (UsbManager.new 0 true true) env_no_device main_callback
    {} 0 (by decide) rfl).1]
  rfl

/-- Witness of C9: the callback stops the loop in its second iteration; two
interfaces are released in order, then close and exit. -/
theorem teardown_once_after_stop_witness :
    ((UsbManager.new 0 false false).start env_stop_second main_callback {} 5).map
        (fun r => (r.1, r.2.polls)) = some (0, 2)
    ∧ calls (teardown 2)
        = [.libusb_release_interface 0, .libusb_release_interface 1,
           .libusb_close, .libusb_exit] := by
  have h := teardown_once_after_stop (UsbManager.new 0 false false) env_stop_second
    main_callback {} 2 5 (by decide) rfl (by decide) (by decide) (by decide) (by decide)
  refine ⟨?_, h.2.1⟩
  rw [h.1]
  decide

/-- Witness of C4: the callback calls `stop()` in iteration 1; the run makes
two control transfers in all. -/
theorem stop_in_callback_ends_loop_witness :
    (session_at (UsbManager.new 0 false false) env_stop_second main_callback {} 2).manager.running
      = false
    ∧ transfers ((session_at (UsbManager.new 0 false false) env_stop_second
        main_callback {} 2).trace ++ teardown 2) = 2 :=
  have h := stop_in_callback_ends_loop (UsbManager.new 0 false false) env_stop_second
    main_callback {} 1 5 (by decide) rfl (by decide) (by decide) (by decide) (by decide)
    (by decide)
  ⟨h.2.2.2.1, h.2.2.2.2.2⟩

end

/-! ## Sticks, home button, tilt, and what the decoder reads -/

theorem tilt_shown_pressed (print_mode hit : Bool) (b : Button) :
    (pressed print_mode hit b).filterMap Line.tilt_shown = [] := by
  cases print_mode <;> cases hit <;> rfl

/-- Claim C12: for every report the decoded stick values are the unsigned
values of bytes 6, 7, 8 and 9, each in `0 .. 255`. -/
theorem sticks_are_unsigned_bytes (print_mode : Bool) (input_report : Report) :
    (decode print_mode input_report).1.left_analog_x = ((input_report 6).val : Int)
    ∧ (decode print_mode input_report).1.left_analog_y = ((input_report 7).val : Int)
    ∧ (decode print_mode input_report).1.right_analog_x = ((input_report 8).val : Int)
    ∧ (decode print_mode input_report).1.right_analog_y = ((input_report 9).val : Int)
    ∧ (0 ≤ (decode print_mode input_report).1.left_analog_x
        ∧ (decode print_mode input_report).1.left_analog_x ≤ 255)
    ∧ (0 ≤ (decode print_mode input_report).1.left_analog_y
        ∧ (decode print_mode input_report).1.left_analog_y ≤ 255)
    ∧ (0 ≤ (decode print_mode input_report).1.right_analog_x
        ∧ (decode print_mode input_report).1.right_analog_x ≤ 255)
    ∧ (0 ≤ (decode print_mode input_report).1.right_analog_y
        ∧ (decode print_mode input_report).1.right_analog_y ≤ 255) := by
  have h6 := (input_report 6).isLt
  have h7 := (input_report 7).isLt
  have h8 := (input_report 8).isLt
  have h9 := (input_report 9).isLt
  refine ⟨rfl, rfl, rfl, rfl, ?_, ?_, ?_, ?_⟩ <;>
    (simp only [decode]; omega)

/-- Witness of C12: bytes 6 to 9 all 128 decode to both sticks at (128, 128). -/
theorem sticks_are_unsigned_bytes_witness :
    (decode false (report_of [(2, 0x10), (6, 128), (7, 128), (8, 128), (9, 128)])).1.left_analog_x = 128
    ∧ (decode false (report_of [(2, 0x10), (6, 128), (7, 128), (8, 128), (9, 128)])).1.right_analog_y = 128 := by
  have h := sticks_are_unsigned_bytes false
    (report_of [(2, 0x10), (6, 128), (7, 128), (8, 128), (9, 128)])
  exact ⟨h.1.trans (by decide), h.2.2.2.1.trans (by decide)⟩

/-- Claim C13: for every report `ps_button` is true exactly when byte 4 is
non-zero: 0 gives false, every value `1 .. 255` gives true. -/
theorem ps_button_iff_byte4_nonzero (print_mode : Bool) (input_report : Report) :
    ((decode print_mode input_report).1.ps_button = true ↔ (input_report 4).val ≠ 0)
    ∧ ((input_report 4).val = 0 → (decode print_mode input_report).1.ps_button = false)
    ∧ (1 ≤ (input_report 4).val ∧ (input_report 4).val ≤ 255 →
        (decode print_mode input_report).1.ps_button = true) := by
  refine ⟨?_, ?_, ?_⟩
  · simp [decode]
  · intro h; simp [decode, h]
  · intro h
    have : (input_report 4).val ≠ 0 := by omega
    simp [decode, this]

/-- Claim C18: the roll/yaw/pitch line `process` displays shows the `int8_t`
conversions of bytes 42, 44 and 46; for every byte `b` that conversion lies in
`-128 .. 127`, is `b` when `b <= 127` and `b - 256` otherwise, and equals
`((b + 128) % 256) - 128`; 255, 128, 127 and 0 give -1, -128, 127 and 0. -/
theorem tilt_displayed_signed (input_report : Report) :
    (decode true input_report).2.filterMap Line.tilt_shown
      = [(to_int8 (input_report 42).val, to_int8 (input_report 44).val,
          to_int8 (input_report 46).val)]
    ∧ (∀ b : Fin 256,
        -128 ≤ to_int8 b.val ∧ to_int8 b.val ≤ 127
        ∧ to_int8 b.val = (if b.val ≤ 127 then (b.val : Int) else (b.val : Int) - 256)
        ∧ to_int8 b.val = ((b.val : Int) + 128) % 256 - 128)
    ∧ to_int8 255 = -1 ∧ to_int8 128 = -128 ∧ to_int8 127 = 127 ∧ to_int8 0 = 0 := by
  refine ⟨?_, ?_, by decide, by decide, by decide, by decide⟩
  · simp only [decode, List.filterMap_append, tilt_shown_pressed, List.nil_append]
    simp [pr, Line.tilt_shown]
  · intro b
    have hb := b.isLt
    rw [to_int8_byte _ hb]
    split_ifs <;> omega

/-- Claim C20: two reports that agree at offsets 2, 3, 4, 6, 7, 8, 9 and 48
decode to the same state, whatever the print mode; the offset-2 members
depend on byte 2 alone and the offset-3 members on byte 3 alone; in every
decoded state at most one member of each group is true. -/
theorem decode_depends_on_eight_bytes (print_mode print_mode' : Bool) (r r' : Report) :
    (r 2 = r' 2 → r 3 = r' 3 → r 4 = r' 4 → r 6 = r' 6 → r 7 = r' 7 → r 8 = r' 8 →
      r 9 = r' 9 → r 48 = r' 48 → (decode print_mode r).1 = (decode print_mode' r').1)
    ∧ (r 2 = r' 2 → ∀ p ∈ offset2_codes,
        (decode print_mode r).1.field p.2 = (decode print_mode' r').1.field p.2)
    ∧ (r 3 = r' 3 → ∀ p ∈ offset3_codes,
        (decode print_mode r).1.field p.2 = (decode print_mode' r').1.field p.2)
    ∧ (∀ p ∈ offset2_codes, ∀ q ∈ offset2_codes,
        (decode print_mode r).1.field p.2 = true → (decode print_mode r).1.field q.2 = true →
          p.2 = q.2)
    ∧ (∀ p ∈ offset3_codes, ∀ q ∈ offset3_codes,
        (decode print_mode r).1.field p.2 = true → (decode print_mode r).1.field q.2 = true →
          p.2 = q.2) := by
  refine ⟨?_, ?_, ?_, ?_, ?_⟩
  · intro h2 h3 h4 h6 h7 h8 h9 h48
    simp only [decode, h2, h3, h4, h6, h7, h8, h9, h48]
  · intro h2 p hp
    simp only [offset2_codes, List.mem_cons, List.mem_singleton, List.not_mem_nil,
      or_false] at hp
    rcases hp with rfl | rfl | rfl | rfl | rfl | rfl | rfl | rfl <;>
      simp only [decode_field, h2]
  · intro h3 p hp
    simp only [offset3_codes, List.mem_cons, List.mem_singleton, List.not_mem_nil,
      or_false] at hp
    rcases hp with rfl | rfl | rfl | rfl | rfl | rfl | rfl | rfl <;>
      simp only [decode_field, h3]
  · intro p hp q hq
    simp only [decode_field]
    generalize (r 2).val = x
    simp only [offset2_codes, List.mem_cons, List.mem_singleton, List.not_mem_nil,
      or_false] at hp hq
    rcases hp with rfl | rfl | rfl | rfl | rfl | rfl | rfl | rfl <;>
    rcases hq with rfl | rfl | rfl | rfl | rfl | rfl | rfl | rfl <;>
    simp <;> omega
  · intro p hp q hq
    simp only [decode_field]
    generalize (r 3).val = x
    simp only [offset3_codes, List.mem_cons, List.mem_singleton, List.not_mem_nil,
      or_false] at hp hq
    rcases hp with rfl | rfl | rfl | rfl | rfl | rfl | rfl | rfl <;>
    rcases hq with rfl | rfl | rfl | rfl | rfl | rfl | rfl | rfl <;>
    simp <;> omega

/-! ## Polls, claims and the sleep between iterations -/

section
variable {σ : Type}

theorem callbacks_process (env : Env) (callback : Observer σ) (st : Session σ) :
    callbacks (UsbManager.process env callback st).2.trace
      = callbacks st.trace
        ++ (if 0 ≤ (env.control_transfer st.polls).ret then
              [(decode st.manager.print_mode (env.control_transfer st.polls).input_report).1]
            else []) := by
  by_cases h : (env.control_transfer st.polls).ret < 0
  · rw [process_err env callback st h, if_neg (not_le.mpr h)]
    dsimp only
    simp only [callbacks_append, callbacks_map_printf]
    simp [callbacks, Event.callback_data]
  · rw [process_ok env callback st (not_lt.mp h), if_pos (not_lt.mp h)]
    dsimp only
    simp only [callbacks_append, callbacks_map_printf, callbacks_map_event, List.append_nil]
    simp [callbacks, Event.callback_data]

/-- Claim C15: a call of `process` whose transfer result is non-negative
returns 0 and invokes the callback exactly once, with the state decoded from
that report; a call whose transfer result is negative returns -1 without
invoking the callback, and leaves the callback's captured state and the
manager as they were. -/
theorem callback_once_per_successful_poll (env : Env) (callback : Observer σ)
    (st : Session σ) :
    (0 ≤ (env.control_transfer st.polls).ret →
      (UsbManager.process env callback st).1 = 0
      ∧ callbacks (UsbManager.process env callback st).2.trace
        = callbacks st.trace
          ++ [(decode st.manager.print_mode (env.control_transfer st.polls).input_report).1]
      ∧ (UsbManager.process env callback st).2.observer
        = (callback (decode st.manager.print_mode
            (env.control_transfer st.polls).input_report).1 st.observer).1)
    ∧ ((env.control_transfer st.polls).ret < 0 →
      (UsbManager.process env callback st).1 = -1
      ∧ callbacks (UsbManager.process env callback st).2.trace = callbacks st.trace
      ∧ (UsbManager.process env callback st).2.observer = st.observer
      ∧ (UsbManager.process env callback st).2.manager = st.manager) := by
  refine ⟨fun h => ⟨?_, ?_, ?_⟩, fun h => ⟨?_, ?_, ?_, ?_⟩⟩
  · rw [process_ok env callback st h]
  · rw [callbacks_process, if_pos h]
  · rw [process_ok env callback st h]
  · rw [process_err env callback st h]
  · rw [callbacks_process, if_neg (not_le.mpr h)]; simp
  · rw [process_err env callback st h]
  · rw [process_err env callback st h]

theorem calls_process (env : Env) (callback : Observer σ) (st : Session σ) :
    calls (UsbManager.process env callback st).2.trace
      = calls st.trace ++ [.libusb_control_transfer]
        ++ (if 0 ≤ (env.control_transfer st.polls).ret then
              [.callback (decode st.manager.print_mode
                (env.control_transfer st.polls).input_report).1]
            else []) := by
  by_cases h : (env.control_transfer st.polls).ret < 0
  · rw [process_err env callback st h, if_neg (not_le.mpr h)]
    dsimp only
    simp [calls_append, calls_map_printf, calls_cons, calls_nil, Event.is_console]
  · rw [process_ok env callback st (not_lt.mp h), if_pos (not_lt.mp h)]
    dsimp only
    simp [calls_append, calls_map_printf, calls_map_event, calls_cons, calls_nil,
      Event.is_console]

theorem decode_data_print_mode (print_mode print_mode' : Bool) (input_report : Report) :
    (decode print_mode input_report).1 = (decode print_mode' input_report).1 := rfl

/-- Claim C14: print mode does not change the decoded state; run on the same
session with `print_mode` true or false, `process` hands the callback the same
states, makes the same calls, returns the same value and leaves the same
captured state: the two runs differ in console lines only. -/
theorem print_mode_leaves_decoded_values (env : Env) (callback : Observer σ)
    (st : Session σ) (input_report : Report) :
    (decode true input_report).1 = (decode false input_report).1
    ∧ callbacks (UsbManager.process env callback (st.with_print_mode true)).2.trace
      = callbacks (UsbManager.process env callback (st.with_print_mode false)).2.trace
    ∧ calls (UsbManager.process env callback (st.with_print_mode true)).2.trace
      = calls (UsbManager.process env callback (st.with_print_mode false)).2.trace
    ∧ (UsbManager.process env callback (st.with_print_mode true)).1
      = (UsbManager.process env callback (st.with_print_mode false)).1
    ∧ (UsbManager.process env callback (st.with_print_mode true)).2.observer
      = (UsbManager.process env callback (st.with_print_mode false)).2.observer := by
  refine ⟨rfl, ?_, ?_, ?_, ?_⟩
  · rw [callbacks_process, callbacks_process]
    rfl
  · rw [calls_process, calls_process]
    rfl
  · by_cases h : (env.control_transfer st.polls).ret < 0
    · rw [process_err env callback (st.with_print_mode true) h,
        process_err env callback (st.with_print_mode false) h]
    · rw [process_ok env callback (st.with_print_mode true) (not_lt.mp h),
        process_ok env callback (st.with_print_mode false) (not_lt.mp h)]
  · by_cases h : (env.control_transfer st.polls).ret < 0
    · rw [process_err env callback (st.with_print_mode true) h,
        process_err env callback (st.with_print_mode false) h]
      rfl
    · rw [process_ok env callback (st.with_print_mode true) (not_lt.mp h),
        process_ok env callback (st.with_print_mode false) (not_lt.mp h)]
      rfl

theorem sleeps_calls (trace : List Event) : sleeps (calls trace) = sleeps trace := by
  induction trace with
  | nil => rfl
  | cons e l ih =>
    rw [calls_cons]
    cases e <;> simp_all [sleeps, Event.is_console, Event.nanosleep_time]

theorem sleeps_append (a b : List Event) : sleeps (a ++ b) = sleeps a ++ sleeps b := by
  simp [sleeps]

theorem sleeps_iteration (env : Env) (callback : Observer σ) (st : Session σ) :
    sleeps (UsbManager.iteration env callback st).trace
      = sleeps st.trace
        ++ (if 0 < st.manager.sleep_time then
              [(st.manager.sleep_time.tdiv 1000, st.manager.sleep_time.tmod 1000 * 1000000)]
            else []) := by
  rw [← sleeps_calls, calls_iteration, sleeps_append, sleeps_append, sleeps_append,
    sleeps_calls]
  have h1 : sleeps [Event.libusb_control_transfer] = [] := rfl
  have h2 : sleeps (if 0 ≤ (env.control_transfer st.polls).ret then
      [Event.callback (decode st.manager.print_mode
        (env.control_transfer st.polls).input_report).1] else []) = [] := by
    split_ifs <;> rfl
  rw [h1, h2]
  split_ifs <;> simp [sleeps, msleep, Event.nanosleep_time]

/-- Claim C17, amended: when the configured interval `s` is positive, every
iteration ends with one suspension whose `timespec` satisfies
`tv_sec * 1000 + tv_nsec / 1000000 = s` and `0 <= tv_nsec < 1000000000`; when
`s` is zero or negative the iteration does not suspend. -/
theorem sleep_only_when_positive (env : Env) (callback : Observer σ) (st : Session σ) :
    (0 < st.manager.sleep_time →
      ∃ tv_sec tv_nsec : Int,
        sleeps (UsbManager.iteration env callback st).trace
          = sleeps st.trace ++ [(tv_sec, tv_nsec)]
        ∧ tv_sec * 1000 + tv_nsec / 1000000 = st.manager.sleep_time
        ∧ 0 ≤ tv_nsec ∧ tv_nsec < 1000000000)
    ∧ (st.manager.sleep_time ≤ 0 →
        sleeps (UsbManager.iteration env callback st).trace = sleeps st.trace) := by
  refine ⟨fun h => ⟨st.manager.sleep_time.tdiv 1000,
      st.manager.sleep_time.tmod 1000 * 1000000, ?_, ?_, ?_, ?_⟩, fun h => ?_⟩
  · rw [sleeps_iteration, if_pos h]
  · rw [Int.tdiv_eq_ediv (by omega) (by omega), Int.tmod_eq_emod (by omega) (by omega)]
    omega
  · rw [Int.tmod_eq_emod (by omega) (by omega)]
    omega
  · rw [Int.tmod_eq_emod (by omega) (by omega)]
    omega
  · rw [sleeps_iteration, if_neg (not_lt.mpr h)]
    simp

theorem claims_append (a b : List Event) : claims (a ++ b) = claims a ++ claims b := by
  simp [claims]

theorem claims_claim_interfaces (env : Env) (nb_ifaces : Nat) :
    claims (claim_interfaces env nb_ifaces) = List.range nb_ifaces := by
  have h : ∀ l : List Nat,
      claims (l.flatMap fun iface =>
        [Event.libusb_kernel_driver_active iface,
         Event.printf (.kernel_driver iface (env.kernel_driver_active iface)),
         Event.printf (.claiming iface),
         Event.libusb_claim_interface iface]
        ++ (if env.claim_interface iface ≠ 0 then [Event.perr .failed] else []))
        = l := by
    intro l
    induction l with
    | nil => rfl
    | cons a l ih =>
      simp only [List.flatMap_cons, claims_append, ih]
      split_ifs <;> simp [claims, Event.claimed]
  exact h _

theorem claims_loop_entry (m : UsbManager) (env : Env) (s : σ) :
    claims (loop_entry m env s).trace = List.range env.bNumInterfaces.val := by
  simp only [loop_entry, claims_append, claims_claim_interfaces]
  have h : claims (m.init env).2 = [] := by
    simp only [UsbManager.init]
    split_ifs <;> rfl
  rw [h]
  simp [claims, Event.claimed]

/-- Claim C16: in a run that opened the handle and read the descriptor, with
`running` still true as the constructor left it, `start` attempts to claim
interfaces `0 .. nb_ifaces - 1`, each once and in order, and whatever the
claims return it enters the loop and runs the first iteration: the first
control transfer follows the connect phase directly. -/
theorem claim_failures_do_not_block (m : UsbManager) (env : Env) (callback : Observer σ)
    (s : σ) (fuel : Nat) (hinit : 0 ≤ env.libusb_init) (hopen : env.handle = true)
    (hconf : 0 ≤ env.get_config_descriptor) (hrunning : m.running = true) :
    claims (loop_entry m env s).trace = List.range env.bNumInterfaces.val
    ∧ m.start env callback s (fuel + 1)
      = (UsbManager.loop env callback fuel
          (UsbManager.iteration env callback (loop_entry m env s))).map
            (fun st => (0, { st with trace := st.trace ++ teardown env.bNumInterfaces.val }))
    ∧ calls (UsbManager.iteration env callback (loop_entry m env s)).trace
      = calls (loop_entry m env s).trace ++ [.libusb_control_transfer]
        ++ (if 0 ≤ (env.control_transfer 0).ret then
              [.callback (decode m.print_mode (env.control_transfer 0).input_report).1]
            else [])
        ++ (if 0 < m.sleep_time then msleep m.sleep_time else [])
    ∧ transfers (loop_entry m env s).trace = 0
    ∧ transfers (UsbManager.iteration env callback (loop_entry m env s)).trace = 1 := by
  refine ⟨claims_loop_entry m env s, ?_, ?_, transfers_loop_entry m env s, ?_⟩
  · rw [start_connected m env callback s (fuel + 1) hinit hopen hconf]
    have h : (loop_entry m env s).manager.running = true := hrunning
    simp only [UsbManager.loop, h, if_true]
  · rw [calls_iteration]
    rfl
  · rw [transfers_iteration, transfers_loop_entry]

end

/-! ## Concrete reports and runs -/

/-- Witness of C13: byte 4 = 255 gives true, byte 4 = 0 gives false. -/
theorem ps_button_iff_byte4_nonzero_witness :
    (decode false (report_of [(4, 255)])).1.ps_button = true
    ∧ (decode false (report_of [(4, 0)])).1.ps_button = false :=
  ⟨(ps_button_iff_byte4_nonzero false (report_of [(4, 255)])).2.2 (by decide),
   (ps_button_iff_byte4_nonzero false (report_of [(4, 0)])).2.1 (by decide)⟩

/-- Witness of C20: two reports that differ at offsets 10, 42 and 47 only. -/
theorem decode_depends_on_eight_bytes_witness :
    (decode true (report_of [(3, 0x20), (10, 7), (42, 200)])).1
      = (decode false (report_of [(3, 0x20), (47, 9)])).1 :=
  (decode_depends_on_eight_bytes true false (report_of [(3, 0x20), (10, 7), (42, 200)])
    (report_of [(3, 0x20), (47, 9)])).1
    (by decide) (by decide) (by decide) (by decide) (by decide) (by decide) (by decide)
    (by decide)

/-- Witness of C14: one poll of a triangle report, with and without print mode. -/
theorem print_mode_leaves_decoded_values_witness :
    callbacks (UsbManager.process env_stop_second main_callback
        (Session.with_print_mode
          { manager := UsbManager.new 0 false false, observer := {}, polls := 0, trace := [] }
          true)).2.trace
      = callbacks (UsbManager.process env_stop_second main_callback
        (Session.with_print_mode
          { manager := UsbManager.new 0 false false, observer := {}, polls := 0, trace := [] }
          false)).2.trace :=
  (print_mode_leaves_decoded_values env_stop_second main_callback
    { manager := UsbManager.new 0 false false, observer := {}, polls := 0, trace := [] }
    (report_of [])).2.1

/-- Witness of C15: a transfer that returns -4, then one that returns 49. -/
theorem callback_once_per_successful_poll_witness :
    (UsbManager.process env_transfer_error main_callback
        { manager := UsbManager.new 0 false false, observer := {}, polls := 0,
          trace := [] }).1 = -1
    ∧ (UsbManager.process env_transfer_error main_callback
        { manager := UsbManager.new 0 false false, observer := {}, polls := 1,
          trace := [] }).1 = 0 :=
  ⟨((callback_once_per_successful_poll env_transfer_error main_callback
      { manager := UsbManager.new 0 false false, observer := {}, polls := 0,
        trace := [] }).2 (by decide)).1,
   ((callback_once_per_successful_poll env_transfer_error main_callback
      { manager := UsbManager.new 0 false false, observer := {}, polls := 1,
        trace := [] }).1 (by decide)).1⟩

/-- Witness of C16: three interfaces, every claim fails, and the first
iteration still makes its control transfer. -/
theorem claim_failures_do_not_block_witness :
    claims (loop_entry (UsbManager.new 0 false false) env_claims_fail ({} : ps3)).trace
      = [0, 1, 2]
    ∧ transfers (UsbManager.iteration env_claims_fail main_callback
        (loop_entry (UsbManager.new 0 false false) env_claims_fail {})).trace = 1 :=
  have h := claim_failures_do_not_block (UsbManager.new 0 false false) env_claims_fail
    main_callback {} 0 (by decide) rfl (by decide) rfl
  ⟨h.1.trans (by decide), h.2.2.2.2⟩

/-- Witness of C17: an interval of 1500 ms. -/
theorem sleep_only_when_positive_witness :
    ∃ tv_sec tv_nsec : Int,
      sleeps (UsbManager.iteration env_stop_second main_callback
          (loop_entry (UsbManager.new 1500 false false) env_stop_second {})).trace
        = sleeps (loop_entry (UsbManager.new 1500 false false) env_stop_second
            ({} : ps3)).trace ++ [(tv_sec, tv_nsec)]
      ∧ tv_sec * 1000 + tv_nsec / 1000000 = 1500
      ∧ 0 ≤ tv_nsec ∧ tv_nsec < 1000000000 :=
  (sleep_only_when_positive env_stop_second main_callback
    (loop_entry (UsbManager.new 1500 false false) env_stop_second {})).1 (by decide)

/-- Counterexample to C17 as stated: the interval -5 is non-zero and the
iteration does not suspend. -/
theorem negative_sleep_time_never_sleeps :
    (UsbManager.new (-5) false false).sleep_time ≠ 0
    ∧ sleeps (UsbManager.iteration env_stop_second main_callback
        (loop_entry (UsbManager.new (-5) false false) env_stop_second {})).trace = [] := by
  decide

/-- Claim C19 fails on the code: `init()` returns -99 and `start` returns 1,
the value of the comparison `init() < 0`; no open follows. -/
theorem init_failure_returns_one :
    ((UsbManager.new 0 true true).init env_init_fails).1 = -99
    ∧ ((UsbManager.new 0 true true).start env_init_fails main_callback {} 0).map
        (fun r => (r.1, calls r.2.trace))
      = some (1, [.putenv, .libusb_init]) := by
  decide

/-- Claim C11 fails on the code: `start` returns -1 when no device matches and
1 when initialisation fails, and `main` returns 0 both times; `main` also
returns 0 after a run whose first transfer failed. -/
theorem main_returns_zero_after_failed_start :
    ((UsbManager.new 0 true true).start env_no_device main_callback {} 0).map (fun r => r.1)
      = some (-1)
    ∧ (main env_no_device 0).map (fun r => r.1) = some 0
    ∧ ((UsbManager.new 0 true true).start env_init_fails main_callback {} 0).map
        (fun r => r.1) = some 1
    ∧ (main env_init_fails 0).map (fun r => r.1) = some 0
    ∧ (env_transfer_error.control_transfer 0).ret = -4
    ∧ (main env_transfer_error 2).map (fun r => r.1) = some 0 := by
  decide

end PocLibusb
